import Mathlib

/-!
Verification development for the crystal structured logging engine.

The definitions below are a shallow embedding of the Go sources under
`internal/` (core/level.go, core/logger.go, core/entry.go,
core/json_formatter.go, outputs/buffered.go, rotation/rotation.go).
Byte strings are modelled as `List Char` (every input considered here is
ASCII, so Go byte lengths coincide with character counts), Go `int`/`int64`
as `Int` or `Nat` where the quantity is provably non-negative, and fixed
`[N]byte` arrays as the written prefix of the array together with the
separately tracked used-length counter, exactly as in the source.
-/

namespace Crystal

/-! ## Severity levels and the level filter (internal/core/level.go, logger.go)

The 8 severities TRACE < DEBUG < INFO < NOTICE < WARN < ERROR < FATAL < PANIC
are the numeric codes 0..7 (`Level uint8`, level.go 13-45). -/

/-- Numeric code of INFO (level.go). -/
def INFO : Nat := 2

/-- Numeric code of ERROR (level.go). -/
def ERROR : Nat := 5

/-- levelMasks (level.go 84-87): entry `i` of the pre-computed mask array is
`1 << i`. -/
def levelMasks (i : Nat) : Nat := 1 <<< i

/-- The level-mask computation shared verbatim by `NewLogger` (logger.go
164-169) and `SetLevel` (logger.go 213-218): starting from 0, OR in
`levelMasks[i]` for `i` running from the configured minimum `m` up to 7. -/
def computeLevelMask (m : Nat) : Nat :=
  (List.range' m (8 - m)).foldl (fun acc i => acc ||| levelMasks i) 0

/-- `Logger.shouldLog` (logger.go 222-224): `(l.levelMask & (1 << level)) != 0`. -/
def shouldLogLevel (mask level : Nat) : Bool :=
  (mask &&& (1 <<< level)) != 0

/-! ## The sampling gate (internal/core/logger.go 1007-1037) -/

/-- State of a `SamplingLogger` (logger.go 1009-1015): the configured rate and
the two `int64` counters.  The back-pointer to the logger plays no role in
`shouldLog` and is omitted.  Go `%` on `int64` is truncated remainder, i.e.
`Int.tmod`. -/
structure SamplingLogger where
  rate : Int
  count : Int
  sampleCount : Int
deriving Repr, DecidableEq

/-- `NewSamplingLogger` (logger.go 1018-1023): both counters start at the
`int64` zero value. -/
def SamplingLogger.new (rate : Int) : SamplingLogger :=
  { rate := rate, count := 0, sampleCount := 0 }

/-- `SamplingLogger.shouldLog` (logger.go 1027-1037): increment `count`, then
return true exactly when `count % rate == 0` (incrementing `sampleCount` in
that case). -/
def shouldLogSample (s : SamplingLogger) : Bool × SamplingLogger :=
  let count := s.count + 1
  if count.tmod s.rate = 0 then
    (true, { rate := s.rate, count := count, sampleCount := s.sampleCount + 1 })
  else
    (false, { rate := s.rate, count := count, sampleCount := s.sampleCount })

/-- `n` sequential calls to `SamplingLogger.shouldLog` starting from state `s`:
the final state and the list of returned booleans in call order. -/
def runSampling (s : SamplingLogger) : Nat → SamplingLogger × List Bool
  | 0 => (s, [])
  | n + 1 =>
    let r := shouldLogSample s
    let rest := runSampling r.2 n
    (rest.1, r.1 :: rest.2)

/-! ## Log entries and the entry pool (internal/core/entry.go)

Fixed-size byte buffers (`[N]byte` plus a used-length `int`) are modelled as
the written prefix of the array (`List Char`); bytes of the array beyond the
written prefix are the zero byte, which `readBuf` makes explicit.  Every
capacity below is the literal array length from entry.go. -/

/-- Byte strings (ASCII throughout this development). -/
abbrev Bytes := List Char

/-- The zero byte, the content of the unwritten part of a Go byte array. -/
def nulByte : Char := Char.ofNat 0

/-- Go `copy(dst[off:], src)` into a fixed `[cap]byte` array whose written
prefix is `buf` (all bytes past `buf` are zero): writes
`min (len src) (cap - off)` bytes starting at `off`.  Requires `off ≤ cap`
(callers below always satisfy this; the one source call site that can violate
it is modelled with an explicit fault, see `truncateStep`). -/
def bufCopyAt (cap : Nat) (buf : Bytes) (off : Nat) (src : Bytes) : Bytes :=
  let padded := buf ++ List.replicate (off - buf.length) nulByte
  let n := min src.length (cap - off)
  padded.take off ++ src.take n ++ padded.drop (off + n)

/-- Go `copy(dst[:], src)` into a fixed `[cap]byte` array. -/
def bufCopy (cap : Nat) (buf : Bytes) (src : Bytes) : Bytes :=
  bufCopyAt cap buf 0 src

/-- Reading the first `n` bytes of a fixed array whose written prefix is
`buf`: bytes beyond the prefix read as zero. -/
def readBuf (buf : Bytes) (n : Nat) : Bytes :=
  (buf ++ List.replicate (n - buf.length) nulByte).take n

/-- A Go `interface{}` value as stored in `FieldPair.Value`.  `float64`
payloads are carried as their IEEE-754 bit pattern (a `Nat`), never
interpreted arithmetically. -/
inductive GoValue where
  | vnil : GoValue
  | str (s : Bytes) : GoValue
  | int (n : Int) : GoValue
  | bool (b : Bool) : GoValue
  | floatBits (bits : Nat) : GoValue
  | timeVal (t : Int) : GoValue
deriving Repr, DecidableEq

/-- `FieldPair` (entry.go 125-139): `Key[:KeyLen]` and
`StringValue[:StringValueLen]` are modelled as the written prefixes; the
capacities (64 and 256 bytes) are enforced where the source writes them. -/
structure FieldPair where
  Key : Bytes
  Value : GoValue
  StringValue : Bytes
  StringValueLen : Nat
  IsString : Bool
  IntValue : Int
  IsInt : Bool
  Float64Bits : Nat
  IsFloat64 : Bool
  BoolValue : Bool
  IsBool : Bool
deriving Repr, DecidableEq

/-- The zero `FieldPair` (all flags false, empty buffers). -/
def FieldPair.zero : FieldPair :=
  { Key := [], Value := GoValue.vnil, StringValue := [], StringValueLen := 0,
    IsString := false, IntValue := 0, IsInt := false, Float64Bits := 0,
    IsFloat64 := false, BoolValue := false, IsBool := false }

/-- `MetricPair` (entry.go 143-147): key prefix (capacity 64) and the float64
value as bits. -/
structure MetricPair where
  Key : Bytes
  ValueBits : Nat
deriving Repr, DecidableEq

/-- `LogEntry` (entry.go 68-121).  Each `[N]byte` buffer is its written
prefix; each used-length counter is the separate `int` field from the source
(`MessageLen` is NOT derived from the buffer: the source sets it
independently, which is exactly what claim C2 is about).  `Timestamp`,
`Duration` and `Error` carry no content relevant to the claims and are
modelled as plain data. -/
structure LogEntry where
  Level : Nat
  MessageLen : Nat
  FieldsCount : Nat
  TagsCount : Nat
  PID : Nat
  LevelName : Bytes
  Message : Bytes
  Fields : List FieldPair
  Tags : List Bytes
  GoroutineID : Bytes
  GoroutineIDLen : Nat
  TraceID : Bytes
  TraceIDLen : Nat
  SpanID : Bytes
  SpanIDLen : Nat
  UserID : Bytes
  UserIDLen : Nat
  SessionID : Bytes
  SessionIDLen : Nat
  RequestID : Bytes
  RequestIDLen : Nat
  StackTrace : Bytes
  StackTraceLen : Nat
  Hostname : Bytes
  HostnameLen : Nat
  Application : Bytes
  ApplicationLen : Nat
  Version : Bytes
  VersionLen : Nat
  Environment : Bytes
  EnvironmentLen : Nat
  CustomMetrics : List MetricPair
  MetricsCount : Nat
deriving Repr, DecidableEq

/-- The zero `LogEntry` (`LogEntry{}` in Go): every counter 0, every buffer
unwritten. -/
def LogEntry.zero : LogEntry :=
  { Level := 0, MessageLen := 0, FieldsCount := 0, TagsCount := 0, PID := 0,
    LevelName := [], Message := [], Fields := [], Tags := [],
    GoroutineID := [], GoroutineIDLen := 0, TraceID := [], TraceIDLen := 0,
    SpanID := [], SpanIDLen := 0, UserID := [], UserIDLen := 0,
    SessionID := [], SessionIDLen := 0, RequestID := [], RequestIDLen := 0,
    StackTrace := [], StackTraceLen := 0, Hostname := [], HostnameLen := 0,
    Application := [], ApplicationLen := 0, Version := [], VersionLen := 0,
    Environment := [], EnvironmentLen := 0, CustomMetrics := [],
    MetricsCount := 0 }

/-- Capacity of `LogEntry.Message` (`[1024]byte`, entry.go 82). -/
def messageCap : Nat := 1024

/-- Capacity of `LogEntry.Fields` (`MAX_PREALLOCATED_FIELDS = 16`). -/
def fieldsCap : Nat := 16

/-- Capacity of `LogEntry.Tags` (`MAX_PREALLOCATED_TAGS = 8`). -/
def tagsCap : Nat := 8

/-- Capacity of `LogEntry.CustomMetrics` (`[8]MetricPair`). -/
def metricsCap : Nat := 8

/-- Capacity of a `FieldPair.Key` / `MetricPair.Key` buffer (`[64]byte`). -/
def keyCap : Nat := 64

/-- Capacity of `FieldPair.StringValue` (`[256]byte`). -/
def stringValueCap : Nat := 256

/-- `LogEntry.SetField` (entry.go 380-397): skip when the 16-slot array is
full, else write the key prefix (truncated at 64 bytes) and the `interface{}`
value into slot `FieldsCount` (freshly zero, since entries are zeroed on
acquisition and `FieldsCount` only grows) and increment `FieldsCount`. -/
def LogEntry.SetField (e : LogEntry) (key : Bytes) (value : GoValue) : LogEntry :=
  if fieldsCap ≤ e.FieldsCount then e
  else
    { e with
      Fields := e.Fields ++
        [{ FieldPair.zero with Key := key.take keyCap, Value := value }],
      FieldsCount := e.FieldsCount + 1 }

/-- `LogEntry.SetStringField` (entry.go 401-427): key truncated at 64 bytes,
value copied into the 256-byte `StringValue` buffer, `IsString` set. -/
def LogEntry.SetStringField (e : LogEntry) (key value : Bytes) : LogEntry :=
  if fieldsCap ≤ e.FieldsCount then e
  else
    { e with
      Fields := e.Fields ++
        [{ FieldPair.zero with
            Key := key.take keyCap,
            StringValue := value.take stringValueCap,
            StringValueLen := min value.length stringValueCap,
            IsString := true }],
      FieldsCount := e.FieldsCount + 1 }

/-- `LogEntry.SetIntField` (entry.go 431-452). -/
def LogEntry.SetIntField (e : LogEntry) (key : Bytes) (value : Int) : LogEntry :=
  if fieldsCap ≤ e.FieldsCount then e
  else
    { e with
      Fields := e.Fields ++
        [{ FieldPair.zero with
            Key := key.take keyCap,
            IntValue := value,
            IsInt := true }],
      FieldsCount := e.FieldsCount + 1 }

/-- `LogEntry.SetBoolField` (entry.go 481-502). -/
def LogEntry.SetBoolField (e : LogEntry) (key : Bytes) (value : Bool) : LogEntry :=
  if fieldsCap ≤ e.FieldsCount then e
  else
    { e with
      Fields := e.Fields ++
        [{ FieldPair.zero with
            Key := key.take keyCap,
            BoolValue := value,
            IsBool := true }],
      FieldsCount := e.FieldsCount + 1 }

/-- `LogEntry.SetFloat64Field` (entry.go 456-477), value as IEEE bits. -/
def LogEntry.SetFloat64Field (e : LogEntry) (key : Bytes) (bits : Nat) : LogEntry :=
  if fieldsCap ≤ e.FieldsCount then e
  else
    { e with
      Fields := e.Fields ++
        [{ FieldPair.zero with
            Key := key.take keyCap,
            Float64Bits := bits,
            IsFloat64 := true }],
      FieldsCount := e.FieldsCount + 1 }

/-- `LogEntry.SetMetric` (entry.go 574-591). -/
def LogEntry.SetMetric (e : LogEntry) (key : Bytes) (bits : Nat) : LogEntry :=
  if metricsCap ≤ e.MetricsCount then e
  else
    { e with
      CustomMetrics := e.CustomMetrics ++
        [{ Key := key.take keyCap, ValueBits := bits }],
      MetricsCount := e.MetricsCount + 1 }

/-- `LogEntry.SetTag` (entry.go 595-606). -/
def LogEntry.SetTag (e : LogEntry) (tag : Bytes) : LogEntry :=
  if tagsCap ≤ e.TagsCount then e
  else { e with Tags := e.Tags ++ [tag], TagsCount := e.TagsCount + 1 }

/-- The message-population step shared by every `Logger.<Level>` method
(e.g. `Logger.Info`, logger.go 557-559): `copy(entry.Message[:], msg)`
truncates silently at the 1024-byte capacity, but
`entry.MessageLen = len(msg)` stores the UNclamped length. -/
def LogEntry.copyMessage (e : LogEntry) (msg : Bytes) : LogEntry :=
  { e with Message := bufCopy messageCap e.Message msg, MessageLen := msg.length }

/-- `LogEntry.GetMessage` (entry.go 243-245): `e.Message[:e.MessageLen]`.
Slicing the `[1024]byte` array with a bound greater than 1024 is a Go runtime
fault (slice bounds out of range), modelled as `none`. -/
def LogEntry.GetMessage (e : LogEntry) : Option Bytes :=
  if e.MessageLen ≤ messageCap then some (readBuf e.Message e.MessageLen)
  else none

/-- Entry populated by `Logger.Info msg` before `logEntry` runs (logger.go
557-559 on a freshly acquired, zeroed entry). -/
def infoEntry (msg : Bytes) : LogEntry :=
  { LogEntry.zero.copyMessage msg with Level := INFO }

/-- One populating operation on an entry, covering the mutators of entry.go
used by the logging pipeline. -/
inductive PopOp where
  | setField (key : Bytes) (v : GoValue)
  | setStringField (key value : Bytes)
  | setIntField (key : Bytes) (v : Int)
  | setBoolField (key : Bytes) (v : Bool)
  | setFloat64Field (key : Bytes) (bits : Nat)
  | setMetric (key : Bytes) (bits : Nat)
  | setTag (tag : Bytes)
  | copyMessage (msg : Bytes)
deriving Repr

/-- Apply one populating operation. -/
def applyPopOp (e : LogEntry) : PopOp → LogEntry
  | PopOp.setField k v => e.SetField k v
  | PopOp.setStringField k v => e.SetStringField k v
  | PopOp.setIntField k v => e.SetIntField k v
  | PopOp.setBoolField k v => e.SetBoolField k v
  | PopOp.setFloat64Field k b => e.SetFloat64Field k b
  | PopOp.setMetric k b => e.SetMetric k b
  | PopOp.setTag t => e.SetTag t
  | PopOp.copyMessage m => e.copyMessage m

/-- Apply a sequence of populating operations in order. -/
def applyPopOps (e : LogEntry) (ops : List PopOp) : LogEntry :=
  ops.foldl applyPopOp e

/-- The reset `*entry = LogEntry{}` performed by `getEntryFromPool`
(entry.go 368). -/
def resetEntry (_e : LogEntry) : LogEntry := LogEntry.zero

/-- `getEntryFromPool` (entry.go 364-370): take an entry from the pool (the
pool's `New` allocates a fresh `&LogEntry{}` on a miss) and reset it to the
zero value before returning it. -/
def getEntryFromPool (pool : List LogEntry) : LogEntry × List LogEntry :=
  match pool with
  | [] => (resetEntry LogEntry.zero, [])
  | e :: rest => (resetEntry e, rest)

/-- `putEntryToPool` (entry.go 374-376): return the entry, as is, to the pool. -/
def putEntryToPool (e : LogEntry) (pool : List LogEntry) : List LogEntry :=
  e :: pool

/-! ## Message truncation in Logger.logEntry (internal/core/logger.go 238-246) -/

/-- The truncation marker written by `Logger.logEntry`: the 15-byte string
`... [truncated]`. -/
def truncationMarker : Bytes := "... [truncated]".data

/-- The message-size check of `Logger.logEntry` (logger.go 239-245): when
`MaxMessageSize > 0` and `MessageLen > MaxMessageSize`, copy the marker into
`Message[MaxMessageSize:]`, set `MessageLen = MaxMessageSize + 14` (the
source's comment calls 14 the length of the marker) and clamp it at
`len(entry.Message) = 1024`.  Go slicing `Message[MaxMessageSize:]` with
`MaxMessageSize > 1024` is a runtime fault, modelled as `none`. -/
def truncateStep (maxMessageSize : Nat) (e : LogEntry) : Option LogEntry :=
  if 0 < maxMessageSize ∧ maxMessageSize < e.MessageLen then
    if messageCap < maxMessageSize then none
    else
      let msg := bufCopyAt messageCap e.Message maxMessageSize truncationMarker
      let len := maxMessageSize + 14
      let len := if messageCap < len then messageCap else len
      some { e with Message := msg, MessageLen := len }
  else some e

/-! ## Text formatter: message sanitization and field masking
(internal/core/json_formatter.go, TextFormatter part) -/

/-- Go `strings.ReplaceAll s pat rep` for a single-character pattern whose
replacement does not contain the pattern: every occurrence of the character is
replaced, everything else is kept in order. -/
def goReplaceAllChar (s : Bytes) (pat : Char) (rep : Bytes) : Bytes :=
  s.flatMap (fun c => if c = pat then rep else [c])

/-- The message sanitization of `TextFormatter.Format` (json_formatter.go
538-539): `ReplaceAll(message, "\n", "\\n")` followed by
`ReplaceAll(message, "\r", "\\r")`. -/
def sanitizeMessage (s : Bytes) : Bytes :=
  goReplaceAllChar (goReplaceAllChar s '\n' ['\\', 'n']) '\r' ['\\', 'r']

/-- The specification reading of the sanitization, for the refinement
statement of C8: each newline becomes the two characters backslash-n, each
carriage return becomes backslash-r, every other character is unchanged. -/
def escapeCtlSpec (c : Char) : Bytes :=
  if c = '\n' then ['\\', 'n'] else if c = '\r' then ['\\', 'r'] else [c]

/-- Go `strings.Contains s sub`. -/
def goContains (sub : Bytes) : Bytes → Bool
  | [] => sub.isEmpty
  | c :: t => sub.isPrefixOf (c :: t) || goContains sub t

/-- The sensitive-key test of `TextFormatter.formatFields` (json_formatter.go
653-657 and 717-722): the lower-cased key contains one of `password`,
`token`, `secret`, `key`.  Keys here are ASCII, so `Char.toLower` agrees with
Go `strings.ToLower`. -/
def isSensitiveKey (key : Bytes) : Bool :=
  let lower := key.map Char.toLower
  goContains "password".data lower || goContains "token".data lower ||
    goContains "secret".data lower || goContains "key".data lower

/-- Quote escaping applied to emitted string field values
(json_formatter.go 662): `ReplaceAll(valueStr, "\"", "\\\"")`. -/
def escapeQuotes (s : Bytes) : Bytes :=
  goReplaceAllChar s '"' ['\\', '"']

/-- The bytes `TextFormatter.formatFields` emits for the VALUE of a
zero-allocation string field (`fp.IsString`, json_formatter.go 642-664):
quote, the (possibly masked, then quote-escaped) value, quote.  Masking
replaces the value by `MaskString` when `MaskSensitiveData` is set and the
key is sensitive. -/
def textStringFieldValueBytes (maskSensitiveData : Bool) (maskString : Bytes)
    (fp : FieldPair) : Bytes :=
  let valueStr := fp.StringValue
  let valueStr :=
    if maskSensitiveData && isSensitiveKey fp.Key then maskString else valueStr
  '"' :: (escapeQuotes valueStr ++ ['"'])

/-! ## JSON formatter fields (internal/core/json_formatter.go 43-229)

`JSONFormatter.Format` builds `fieldMap[key] = fp.Value` for every populated
field (lines 146-159).  The statements of the `Format` body never read
`f.MaskSensitiveData`, so the field map below takes no formatter
configuration: it is the same for every `JSONFormatter`. -/

/-- The `(key, value)` pairs `JSONFormatter.Format` places in `fieldMap`
(json_formatter.go 150-158): key from `fp.Key[:fp.KeyLen]`, value exactly
`fp.Value` — no masking and no consultation of `MaskSensitiveData`. -/
def jsonFieldMapPairs (fields : List FieldPair) : List (Bytes × GoValue) :=
  fields.map (fun fp => (fp.Key, fp.Value))

/-! ## The buffered writer (internal/outputs/buffered.go 48-72) -/

/-- State of an `outputs.BufferedWriter` relevant to `Write`: the channel
contents (`queue`, capacity `bufferSize`), whether `done` has been closed by
`Close`, the two `int64` counters, and the bytes handed to the underlying
sink in order (`sink`). -/
structure BufState where
  queue : List Bytes
  bufferSize : Nat
  doneClosed : Bool
  droppedLogs : Int
  totalLogs : Int
  sink : List Bytes
deriving Repr, DecidableEq

/-- Which branch of the `select` in `Write` ran. -/
inductive BufWriteCase where
  | enqueued
  | doneFallback
  | fullFallback
deriving Repr, DecidableEq

/-- `outputs.BufferedWriter.Write` (buffered.go 48-72).  Go `select`
semantics: the send case is ready iff the channel has space, the
`<-bw.done` case is ready iff `done` is closed, and `default` runs only when
no case is ready.  When both cases are ready Go chooses pseudo-randomly;
`pick` resolves that choice (`true` = send).  The underlying sink write is
assumed to succeed (its error is simply returned by the source). -/
def bufferedWrite (bw : BufState) (p : Bytes) (pick : Bool) :
    BufState × BufWriteCase :=
  let bw := { bw with totalLogs := bw.totalLogs + 1 }
  let sendReady := bw.queue.length < bw.bufferSize
  if sendReady && bw.doneClosed then
    if pick then ({ bw with queue := bw.queue ++ [p] }, BufWriteCase.enqueued)
    else ({ bw with sink := bw.sink ++ [p] }, BufWriteCase.doneFallback)
  else if sendReady then
    ({ bw with queue := bw.queue ++ [p] }, BufWriteCase.enqueued)
  else if bw.doneClosed then
    ({ bw with sink := bw.sink ++ [p] }, BufWriteCase.doneFallback)
  else
    ({ bw with droppedLogs := bw.droppedLogs + 1, sink := bw.sink ++ [p] },
      BufWriteCase.fullFallback)

/-! ## The rotating file writer (internal/rotation/rotation.go) -/

/-- State of a `RotatingFileWriter` relevant to `Write`/`rotate`:
configuration (`maxSize` in bytes, `rotationTime` and `maxAge` in
nanoseconds, Go `int64`), the running size counter, the elapsed nanoseconds
`time.Now().Sub(r.lastRotation)` at the moment of the call, and whether
`lastRotation` is the zero time. -/
structure RotState where
  maxSize : Int
  rotationTime : Int
  maxAge : Int
  currentSize : Int
  sinceLastRotation : Int
  lastRotationIsZero : Bool
deriving Repr, DecidableEq

/-- `RotatingFileWriter.needsRotation` (rotation.go 124-140). -/
def needsRotation (r : RotState) : Bool :=
  (0 < r.maxSize && r.maxSize ≤ r.currentSize) ||
    (0 < r.rotationTime && r.rotationTime ≤ r.sinceLastRotation) ||
    (0 < r.maxAge && !r.lastRotationIsZero && r.maxAge ≤ r.sinceLastRotation)

/-- `RotatingFileWriter.rotate` (rotation.go 143-196).  Its first statement is
`r.mu.Lock()`; a Go `sync.Mutex` is not reentrant, so when the calling
goroutine already holds `r.mu` the `Lock` blocks forever and `rotate` never
returns, modelled as `none`.  When the mutex is free the rotation closes and
renames the file, opens a fresh one, and resets `currentSize` and
`lastRotation` (file-system errors are not modelled: the claim concerns
control flow, and the deadlock happens before any file operation matters). -/
def rotate (muHeldByCaller : Bool) (r : RotState) : Option RotState :=
  if muHeldByCaller then none
  else
    some { r with currentSize := 0, sinceLastRotation := 0,
                  lastRotationIsZero := false }

/-- Outcome of a `RotatingFileWriter.Write` call. -/
inductive RotWriteResult where
  | ok (n : Nat) (r : RotState)
  | blocked
deriving Repr, DecidableEq

/-- `RotatingFileWriter.Write` (rotation.go 104-121): acquire `r.mu` (free at
entry), check `needsRotation`, rotate if needed — calling `rotate` WHILE
HOLDING `r.mu` — then write `p` and add `len(p)` to `currentSize`.  A blocked
`rotate` means the `Write` call never returns. -/
def rotatingWrite (r : RotState) (p : Bytes) : RotWriteResult :=
  if needsRotation r then
    match rotate true r with
    | none => RotWriteResult.blocked
    | some r2 =>
        RotWriteResult.ok p.length
          { r2 with currentSize := r2.currentSize + p.length }
  else
    RotWriteResult.ok p.length
      { r with currentSize := r.currentSize + p.length }

/-! ## The async logger's shutdown drain (internal/core/logger.go 1089-1178) -/

/-- A `logJob` (logger.go 1053-1059): the zero-allocation jobs carry an
entry pointer, legacy jobs carry `(level, msg, fields)`.  A nil `*LogEntry`
inside a job is `entry = none`. -/
structure LogJob where
  level : Nat
  msg : Bytes
  fields : List (Bytes × GoValue)
  entry : Option LogEntry
deriving Repr, DecidableEq

/-- How a worker goroutine of `AsyncLogger.worker` finishes. -/
inductive WorkerOutcome where
  | exited
  | nilJobFault
deriving Repr, DecidableEq

/-- The drain loop of `AsyncLogger.worker` (logger.go 1104-1120) executed
in the state reached once `Close` (logger.go 1172-1178) has run both
`close(al.closed)` and `close(al.jobs)`: a receive from the CLOSED `jobs`
channel is always ready — it yields the queued jobs in order and then the
zero value `nil` — so the `default: return` branch is unreachable, and on the
`nil` job the selector `job.entry` dereferences a nil pointer (a runtime
fault).  Returns the jobs actually processed and the worker's outcome. -/
def workerDrainClosed : List LogJob → List LogJob × WorkerOutcome
  | [] => ([], WorkerOutcome.nilJobFault)
  | j :: rest =>
      let r := workerDrainClosed rest
      (j :: r.1, r.2)

/-! ## Theorems -/

/-- C7: for every configured minimum level `m` set by `NewLogger` or by a
later `SetLevel` call and every severity `L` among the 8 levels,
`Logger.shouldLog L` consults the recomputed bitmask and returns true exactly
when `L ≥ m`; equivalently, bit `L` of the mask is set iff `L ≥ m`. -/
theorem levelFilter_shouldLog_iff (m : Nat) (hm : m < 8) (L : Nat) (hL : L < 8) :
    shouldLogLevel (computeLevelMask m) L = true ↔ m ≤ L := by
  interval_cases m <;> interval_cases L <;> decide

/-- Witness for C7 at the concrete minimum INFO = 2 and level ERROR = 5. -/
theorem levelFilter_shouldLog_iff_witness :
    (2 : Nat) < 8 ∧ (5 : Nat) < 8 ∧
      shouldLogLevel (computeLevelMask 2) 5 = true :=
  ⟨by decide, by decide,
    (levelFilter_shouldLog_iff 2 (by decide) 5 (by decide)).mpr (by decide)⟩

/-- Helper: characters produced by the escape map are never a raw newline or
carriage return. -/
theorem escapeCtlSpec_no_ctl {c a : Char} (h : c ∈ escapeCtlSpec a) :
    c ≠ '\n' ∧ c ≠ '\r' := by
  unfold escapeCtlSpec at h
  by_cases h1 : a = '\n'
  · subst h1
    simp at h
    rcases h with h | h <;> subst h <;> exact ⟨by decide, by decide⟩
  · by_cases h2 : a = '\r'
    · subst h2
      simp [h1] at h
      rcases h with h | h <;> subst h <;> exact ⟨by decide, by decide⟩
    · simp [h1, h2] at h
      subst h
      exact ⟨h1, h2⟩

/-- Helper: the two sequential `ReplaceAll` passes of the source equal the
single-pass escape map of the spec. -/
theorem sanitizeMessage_eq_flatMap (s : Bytes) :
    sanitizeMessage s = s.flatMap escapeCtlSpec := by
  induction s with
  | nil => rfl
  | cons c t ih =>
    unfold sanitizeMessage goReplaceAllChar at *
    simp only [List.flatMap_cons, List.flatMap_append] at *
    rw [ih]
    congr 1
    by_cases h1 : c = '\n'
    · subst h1; decide
    · by_cases h2 : c = '\r'
      · subst h2; decide
      · simp [escapeCtlSpec, h1, h2]

/-- C8: `TextFormatter.Format` neutralizes log injection: for every message,
the sanitized message it emits contains no raw newline and no raw carriage
return; it equals the message with each newline replaced by the two
characters backslash-n, each carriage return by backslash-r, and every other
character unchanged in order; and on the spec's example the message
`A\nERROR: fake` comes out as the literal text `A\nERROR: fake` with a
two-character backslash-n. -/
theorem textFormatter_sanitize_neutralizes :
    (∀ s : Bytes, '\n' ∉ sanitizeMessage s ∧ '\r' ∉ sanitizeMessage s ∧
        sanitizeMessage s = s.flatMap escapeCtlSpec) ∧
      sanitizeMessage "A\nERROR: fake".data = "A\\nERROR: fake".data := by
  refine ⟨fun s => ⟨?_, ?_, sanitizeMessage_eq_flatMap s⟩, by decide⟩
  · rw [sanitizeMessage_eq_flatMap]
    intro hmem
    rcases List.mem_flatMap.mp hmem with ⟨a, _, ha⟩
    exact (escapeCtlSpec_no_ctl ha).1 rfl
  · rw [sanitizeMessage_eq_flatMap]
    intro hmem
    rcases List.mem_flatMap.mp hmem with ⟨a, _, ha⟩
    exact (escapeCtlSpec_no_ctl ha).2 rfl

/-- C10: the pool round-trip: populate an arbitrary entry by any sequence of
populating operations, release it with `putEntryToPool`, acquire again with
`getEntryFromPool` — the acquired entry is the zero `LogEntry`, so every
used-length counter is 0 and no data of the prior use is carried over. -/
theorem entryPool_roundtrip_zero :
    ∀ (ops : List PopOp) (e : LogEntry) (pool : List LogEntry),
      (getEntryFromPool (putEntryToPool (applyPopOps e ops) pool)).1 =
          LogEntry.zero ∧
        (getEntryFromPool (putEntryToPool (applyPopOps e ops) pool)).1.MessageLen = 0 ∧
        (getEntryFromPool (putEntryToPool (applyPopOps e ops) pool)).1.FieldsCount = 0 ∧
        (getEntryFromPool (putEntryToPool (applyPopOps e ops) pool)).1.TagsCount = 0 ∧
        (getEntryFromPool (putEntryToPool (applyPopOps e ops) pool)).1.MetricsCount = 0 ∧
        (getEntryFromPool (putEntryToPool (applyPopOps e ops) pool)).1.TraceIDLen = 0 ∧
        (getEntryFromPool (putEntryToPool (applyPopOps e ops) pool)).1.SpanIDLen = 0 ∧
        (getEntryFromPool (putEntryToPool (applyPopOps e ops) pool)).1.UserIDLen = 0 ∧
        (getEntryFromPool (putEntryToPool (applyPopOps e ops) pool)).1.SessionIDLen = 0 ∧
        (getEntryFromPool (putEntryToPool (applyPopOps e ops) pool)).1.RequestIDLen = 0 ∧
        (getEntryFromPool (putEntryToPool (applyPopOps e ops) pool)).1.StackTraceLen = 0 ∧
        (getEntryFromPool (putEntryToPool (applyPopOps e ops) pool)).1.Fields = [] ∧
        (getEntryFromPool (putEntryToPool (applyPopOps e ops) pool)).1.Tags = [] ∧
        (getEntryFromPool (putEntryToPool (applyPopOps e ops) pool)).1.Message = [] :=
  fun _ _ _ =>
    ⟨rfl, rfl, rfl, rfl, rfl, rfl, rfl, rfl, rfl, rfl, rfl, rfl, rfl, rfl⟩

/-- C5: in the shutdown state produced by `AsyncLogger.Close` (both `closed`
and `jobs` channels closed), a worker's drain processes ALL queued jobs in
arrival order — no queued job is lost — but then the always-ready receive on
the closed `jobs` channel yields a nil `*logJob` and `job.entry` dereferences
a nil pointer: the worker faults instead of exiting cleanly. -/
theorem asyncWorker_drain_processes_all_then_faults :
    ∀ queue : List LogJob,
      workerDrainClosed queue = (queue, WorkerOutcome.nilJobFault) := by
  intro queue
  induction queue with
  | nil => rfl
  | cons j t ih => simp [workerDrainClosed, ih]

/-- Helper: the boolean returned by one `shouldLog` call. -/
theorem shouldLogSample_fst (s : SamplingLogger) :
    (shouldLogSample s).1 = decide ((s.count + 1).tmod s.rate = 0) := by
  unfold shouldLogSample
  by_cases h : (s.count + 1).tmod s.rate = 0 <;> simp [h]

/-- Helper: one `shouldLog` call increments `count` by one. -/
theorem shouldLogSample_snd_count (s : SamplingLogger) :
    (shouldLogSample s).2.count = s.count + 1 := by
  unfold shouldLogSample
  by_cases h : (s.count + 1).tmod s.rate = 0 <;> simp [h]

/-- Helper: one `shouldLog` call leaves `rate` unchanged. -/
theorem shouldLogSample_snd_rate (s : SamplingLogger) :
    (shouldLogSample s).2.rate = s.rate := by
  unfold shouldLogSample
  by_cases h : (s.count + 1).tmod s.rate = 0 <;> simp [h]

/-- Helper: unfolding one step of `runSampling`. -/
theorem runSampling_succ_snd (s : SamplingLogger) (n : Nat) :
    (runSampling s (n + 1)).2 =
      (shouldLogSample s).1 :: (runSampling (shouldLogSample s).2 n).2 := rfl

/-- Helper: the i-th boolean (0-based) among `n` sequential `shouldLog`
calls from state `s` is true exactly when `count + i + 1` is hit by the
modulo test. -/
theorem runSampling_getElem (s : SamplingLogger) (n : Nat) :
    ∀ i, i < n → ((runSampling s n).2)[i]? =
      some (decide ((s.count + (i : Int) + 1).tmod s.rate = 0)) := by
  induction n generalizing s with
  | zero => intro i h; omega
  | succ n ih =>
    intro i hi
    rw [runSampling_succ_snd]
    cases i with
    | zero => simp [shouldLogSample_fst]
    | succ i =>
      have hi2 : i < n := by omega
      have h := ih (shouldLogSample s).2 i hi2
      rw [shouldLogSample_snd_count, shouldLogSample_snd_rate] at h
      rw [List.getElem?_cons_succ, h]
      have harith : s.count + 1 + (i : Int) + 1 =
          s.count + ((i : Nat) + 1 : Nat) + 1 := by push_cast; ring
      rw [harith]

set_option maxRecDepth 4000 in
/-- C6: in every `SamplingLogger` with rate `N > 1`, the k-th sequential
`shouldLog` call (1-based, element `k-1` of the result list) returns true
exactly when `N` divides `k` — the counter is incremented before the modulo
test — and in particular with rate 100, among 250 sequential calls exactly 2
return true, namely the 100th and the 200th. -/
theorem samplingGate_everyNth :
    (∀ (N : Int) (k i : Nat), 1 < N → i < k →
        ((runSampling (SamplingLogger.new N) k).2)[i]? =
          some (decide (N ∣ ((i : Int) + 1)))) ∧
      ((runSampling (SamplingLogger.new 100) 250).2.count true = 2 ∧
        ((runSampling (SamplingLogger.new 100) 250).2)[99]? = some true ∧
        ((runSampling (SamplingLogger.new 100) 250).2)[199]? = some true) := by
  constructor
  · intro N k i hN hik
    rw [runSampling_getElem _ _ i hik]
    have h0 : (SamplingLogger.new N).count = 0 := rfl
    have h1 : (SamplingLogger.new N).rate = N := rfl
    rw [h0, h1]
    congr 1
    rw [decide_eq_decide]
    have hpos : (0 : Int) ≤ (i : Int) + 1 := by positivity
    rw [zero_add, Int.tmod_eq_emod hpos (by omega)]
    exact ⟨fun h => Int.dvd_of_emod_eq_zero h, fun h => Int.emod_eq_zero_of_dvd h⟩
  · exact ⟨by decide, by decide, by decide⟩

set_option maxRecDepth 4000 in
/-- Witness for C6 at rate 100, 250 calls, the 100th call (index 99). -/
theorem samplingGate_everyNth_witness :
    (1 : Int) < 100 ∧ (99 : Nat) < 250 ∧
      ((runSampling (SamplingLogger.new 100) 250).2)[99]? =
        some (decide ((100 : Int) ∣ ((99 : Nat) : Int) + 1)) :=
  ⟨by decide, by decide, samplingGate_everyNth.1 100 250 99 (by decide) (by decide)⟩

/-- C1 (evaluation at the failing input): a `RotatingFileWriter` with
`maxSize = 100` whose `currentSize` has reached 100 needs rotation, and the
next `Write` call — still holding `r.mu` — re-locks the non-reentrant mutex
inside `rotate` and therefore blocks forever instead of rotating, writing and
returning. -/
theorem rotatingWrite_deadlock_cex :
    needsRotation
        { maxSize := 100, rotationTime := 0, maxAge := 0, currentSize := 100,
          sinceLastRotation := 0, lastRotationIsZero := false } = true ∧
      rotatingWrite
          { maxSize := 100, rotationTime := 0, maxAge := 0, currentSize := 100,
            sinceLastRotation := 0, lastRotationIsZero := false } ['x'] =
        RotWriteResult.blocked := by
  exact ⟨by decide, by decide⟩

/-- C2 (evaluation at the failing input): `Logger.Info` with a 1025-byte
message leaves `MessageLen = 1025 > 1024 = len(entry.Message)` — the
used-length counter exceeds the buffer capacity — and reading the entry back
with `GetMessage` slices `Message[:1025]` out of the bounds of the
`[1024]byte` array: a runtime fault, not a silent truncation. -/
theorem messageLen_overflow_fault_cex :
    (infoEntry (List.replicate 1025 'a')).MessageLen = 1025 ∧
      messageCap = 1024 ∧
      (infoEntry (List.replicate 1025 'a')).GetMessage = none := by
  have hlen : ∀ m : Bytes, (infoEntry m).MessageLen = m.length := fun _ => rfl
  have h : (infoEntry (List.replicate 1025 'a')).MessageLen = 1025 := by
    rw [hlen, List.length_replicate]
  refine ⟨h, rfl, ?_⟩
  unfold LogEntry.GetMessage
  rw [h]
  simp [messageCap]

set_option maxRecDepth 40000 in
/-- C3 (evaluation at the failing input): with `MaxMessageSize = 100` and a
200-byte message, the truncation step of `Logger.logEntry` sets
`MessageLen = 114 = MaxMessageSize + 14`, although the marker
`... [truncated]` is 15 bytes long, so the emitted message is
`MaxMessageSize + 14` bytes and ends with `... [truncated` — the marker
without its closing bracket — contradicting the claimed length
`MaxMessageSize + len(marker)` and the claimed marker suffix. -/
theorem truncation_marker_cex :
    truncationMarker.length = 15 ∧
      (truncateStep 100 (infoEntry (List.replicate 200 'a'))).map
          LogEntry.MessageLen = some 114 ∧
      (truncateStep 100 (infoEntry (List.replicate 200 'a'))).bind
          LogEntry.GetMessage =
        some (List.replicate 100 'a' ++ "... [truncated".data) ∧
      truncationMarker.isSuffixOf
          (List.replicate 100 'a' ++ "... [truncated".data) = false := by
  exact ⟨by decide, by decide, by decide, by decide⟩

/-- C9 (evaluation at the failing input): `JSONFormatter.Format` builds its
field map as `fieldMap[key] = fp.Value` without ever consulting
`MaskSensitiveData`: a field keyed `password` holding the string
`secret123` (stored through the generic `SetField`, the path used for the
logger's global fields) is emitted with its raw value — the secret appears
verbatim and no mask token is produced.  By contrast the text formatter
masks the same key: the value bytes it emits for the zero-allocation string
field written by `SetStringField` are `"***"`, independent of the secret. -/
theorem jsonFormatter_no_masking_cex :
    jsonFieldMapPairs
        (LogEntry.zero.SetField "password".data
          (GoValue.str "secret123".data)).Fields =
      [("password".data, GoValue.str "secret123".data)] ∧
      (LogEntry.zero.SetStringField "password".data "secret123".data).Fields.map
          (textStringFieldValueBytes true "***".data) =
        ["\"***\"".data] := by
  exact ⟨by decide, by decide⟩

/-- C4 (counterexample): a `Write` against a full queue on a writer whose
`done` channel is already closed takes the ready `<-bw.done` branch of the
`select`: the bytes are written directly to the sink but the dropped-logs
counter is NOT incremented, refuting "every call that finds the queue full
increments the dropped counter by exactly one". -/
theorem bufferedWrite_full_done_cex :
    ({ queue := [['x']], bufferSize := 1, doneClosed := true,
       droppedLogs := 0, totalLogs := 0, sink := [] } : BufState).bufferSize ≤
        ({ queue := [['x']], bufferSize := 1, doneClosed := true,
           droppedLogs := 0, totalLogs := 0, sink := [] } : BufState).queue.length ∧
      (bufferedWrite
          { queue := [['x']], bufferSize := 1, doneClosed := true,
            droppedLogs := 0, totalLogs := 0, sink := [] } ['y'] true).1.droppedLogs
        = 0 ∧
      (bufferedWrite
          { queue := [['x']], bufferSize := 1, doneClosed := true,
            droppedLogs := 0, totalLogs := 0, sink := [] } ['y'] true).1.sink
        = [['y']] := by
  exact ⟨by decide, by decide, by decide⟩

/-- C4 (amended): every `outputs.BufferedWriter.Write` either enqueues the
bytes or writes them directly to the sink — bytes are never discarded; a
call that finds the queue full while the writer is not shut down increments
the dropped counter by exactly one and writes the bytes directly and
synchronously to the sink; a call that finds the queue full after shutdown
still writes the bytes directly but leaves the dropped counter unchanged. -/
theorem bufferedWrite_full_queue_policy (bw : BufState) (p : Bytes)
    (pick : Bool) :
    ((bufferedWrite bw p pick).1.queue = bw.queue ++ [p] ∨
        (bufferedWrite bw p pick).1.sink = bw.sink ++ [p]) ∧
      (bw.bufferSize ≤ bw.queue.length → bw.doneClosed = false →
        (bufferedWrite bw p pick).1.droppedLogs = bw.droppedLogs + 1 ∧
          (bufferedWrite bw p pick).1.sink = bw.sink ++ [p] ∧
          (bufferedWrite bw p pick).1.queue = bw.queue) ∧
      (bw.bufferSize ≤ bw.queue.length → bw.doneClosed = true →
        (bufferedWrite bw p pick).1.droppedLogs = bw.droppedLogs ∧
          (bufferedWrite bw p pick).1.sink = bw.sink ++ [p]) := by
  unfold bufferedWrite
  by_cases hs : bw.queue.length < bw.bufferSize
  · by_cases hd : bw.doneClosed
    · cases pick <;> simp [hs, hd]
    · simp [hs, hd]
  · by_cases hd : bw.doneClosed
    · simp [hs, hd]
    · simp only [hs, hd]
      refine ⟨Or.inr ?_, fun _ _ => ⟨?_, ?_, ?_⟩, fun _ h => ?_⟩ <;>
        simp_all

/-- Witness for C4's amended statement at a concrete full, not-shut-down
writer. -/
theorem bufferedWrite_full_queue_policy_witness :
    ({ queue := [['x']], bufferSize := 1, doneClosed := false,
       droppedLogs := 0, totalLogs := 0, sink := [] } : BufState).bufferSize ≤
        ({ queue := [['x']], bufferSize := 1, doneClosed := false,
           droppedLogs := 0, totalLogs := 0, sink := [] } : BufState).queue.length ∧
      (bufferedWrite
          { queue := [['x']], bufferSize := 1, doneClosed := false,
            droppedLogs := 0, totalLogs := 0, sink := [] } ['y'] true).1.droppedLogs
        = 0 + 1 ∧
      (bufferedWrite
          { queue := [['x']], bufferSize := 1, doneClosed := false,
            droppedLogs := 0, totalLogs := 0, sink := [] } ['y'] true).1.sink
        = [] ++ [['y']] :=
  ⟨by decide,
    ((bufferedWrite_full_queue_policy
        { queue := [['x']], bufferSize := 1, doneClosed := false,
          droppedLogs := 0, totalLogs := 0, sink := [] } ['y'] true).2.1
      (by decide) (by decide)).1,
    ((bufferedWrite_full_queue_policy
        { queue := [['x']], bufferSize := 1, doneClosed := false,
          droppedLogs := 0, totalLogs := 0, sink := [] } ['y'] true).2.1
      (by decide) (by decide)).2.1⟩

end Crystal
